import Mathlib

/-!
Verification of the mayastor control-plane core: the nexus spec operation
state machine (`control-plane/agents/core/src/nexus/specs.rs`) and the
replica/pool scheduling filters and sorters
(`control-plane/agents/core/src/core/scheduling/mod.rs`), shallowly embedded
in Lean. Identifiers are kept close to the Rust source; shared-library types
(from `common_lib`) that the source uses but that are not part of the core
crates are modelled structurally from the specification, and each such
definition says so in its doc comment.
-/

namespace Mayastor

/-- Resource identifiers (uuids), child URIs, pool and node names are opaque
strings in the source. -/
abbrev Uuid := String

abbrev ChildUri := String

abbrev PoolId := String

abbrev NodeId := String

/-- Share protocol of a nexus or replica (`Protocol` in `common_lib`): `none`
means not shared, any other value means shared over the network. -/
inductive Protocol
  | off
  | nvmf
  | iscsi
  | nbd
deriving DecidableEq, Repr

/-- `Protocol::shared()`: every protocol other than `None` counts as shared. -/
def Protocol.shared : Protocol → Bool
  | Protocol.off => false
  | _ => true

/-- Health state of a nexus child (`ChildState` in `common_lib`). -/
inductive ChildState
  | Unknown
  | Online
  | Degraded
  | Faulted
deriving DecidableEq, Repr

/-- Modelled from the spec: the partial order on child health states used by
the child sorter ("a fully synced/online child ranks above a
degraded/rebuilding one, using a partial order"); `Unknown` is comparable to
nothing but itself. The `PartialOrd` impl lives in `common_lib`, outside the
core crates. -/
def ChildState.compareOpt : ChildState → ChildState → Option Ordering
  | ChildState.Unknown, ChildState.Unknown => some Ordering.eq
  | ChildState.Unknown, _ => none
  | _, ChildState.Unknown => none
  | ChildState.Online, ChildState.Online => some Ordering.eq
  | ChildState.Online, _ => some Ordering.gt
  | _, ChildState.Online => some Ordering.lt
  | ChildState.Degraded, ChildState.Degraded => some Ordering.eq
  | ChildState.Degraded, ChildState.Faulted => some Ordering.gt
  | ChildState.Faulted, ChildState.Degraded => some Ordering.lt
  | ChildState.Faulted, ChildState.Faulted => some Ordering.eq

/-- A child of a live nexus state (`Child` in `common_lib`): its URI, health
state and rebuild progress percentage (when a rebuild is in flight). -/
structure Child where
  uri : ChildUri
  state : ChildState
  rebuild_progress : Option Nat
deriving DecidableEq, Repr

/-- A replica-backed nexus child reference (`ReplicaUri` in `common_lib`):
the replica uuid together with the share URI under which the nexus sees it. -/
structure ReplicaUri where
  uuid : Uuid
  share_uri : ChildUri
deriving DecidableEq, Repr

/-- A child recorded in a `NexusSpec` (`NexusChild` in `common_lib`): either a
replica the control plane manages, or a bare URI. -/
inductive NexusChild
  | Replica (r : ReplicaUri)
  | Uri (u : ChildUri)
deriving DecidableEq, Repr

/-- `NexusChild::uri()`: the URI under which the child appears in the nexus. -/
def NexusChild.uri : NexusChild → ChildUri
  | NexusChild.Replica r => r.share_uri
  | NexusChild.Uri u => u

/-- `NexusChild::as_replica()`: the replica reference, when the child is one. -/
def NexusChild.as_replica : NexusChild → Option ReplicaUri
  | NexusChild.Replica r => some r
  | NexusChild.Uri _ => none

/-- Runtime status of a nexus as reported by a storage node. -/
inductive NexusStatus
  | Unknown
  | Online
  | Degraded
  | Faulted
deriving DecidableEq, Repr

/-- Live state of a nexus (`Nexus` in `common_lib`): what the storage node
actually reports, as opposed to the desired-state `NexusSpec`. -/
structure Nexus where
  uuid : Uuid
  node : NodeId
  share : Protocol
  children : List Child
  status : NexusStatus
deriving DecidableEq, Repr

/-- `Nexus::contains_child(uri)`: whether the live state has a child with the
given URI. -/
def Nexus.contains_child (n : Nexus) (uri : ChildUri) : Bool :=
  n.children.any (fun c => c.uri == uri)

/-- The operation being applied to a nexus spec (`NexusOperation`). -/
inductive NexusOperation
  | Create
  | Destroy
  | Share (protocol : Protocol)
  | Unshare
  | AddChild (child : NexusChild)
  | RemoveChild (child : NexusChild)
deriving DecidableEq, Repr

/-- An in-flight operation recorded on a spec, with its result once known
(`NexusOperationState` in `common_lib`). -/
structure NexusOperationState where
  operation : NexusOperation
  result : Option Bool
deriving DecidableEq, Repr

/-- Lifecycle status of a resource spec (`SpecStatus` in `common_lib`). -/
inductive SpecStatus (T : Type)
  | Creating
  | Created (t : T)
  | Deleting
  | Deleted
deriving DecidableEq, Repr

/-- Desired-state record for a nexus (`NexusSpec` in `common_lib`): the fields
the core nexus operations read and write. -/
structure NexusSpec where
  uuid : Uuid
  node : NodeId
  children : List NexusChild
  size : Nat
  spec_status : SpecStatus NexusStatus
  share : Protocol
  owner : Option Uuid
  operation : Option NexusOperationState
deriving DecidableEq, Repr

/-- Modelled from the spec: `SpecTransaction::start_op` for `NexusSpec` lives
in `common_lib`, outside the core crates; per §4.2 "Passing validation records
the Operation on the spec (marks it dirty/pending)" — the operation is stored
with no result yet. -/
def NexusSpec.start_op (self : NexusSpec) (op : NexusOperation) : NexusSpec :=
  { self with operation := some { operation := op, result := none } }

/-- `pending_op()`: a spec is dirty exactly when an operation is recorded. -/
def NexusSpec.pending_op (self : NexusSpec) : Bool :=
  self.operation.isSome

/-- `NexusSpec::contains_replica(uuid)`: whether a replica child with this
uuid is recorded on the spec. -/
def NexusSpec.contains_replica (self : NexusSpec) (uuid : Uuid) : Bool :=
  self.children.any (fun c => (c.as_replica.map ReplicaUri.uuid) == some uuid)

/-- Resource kinds appearing in service errors (`ResourceKind`). -/
inductive ResourceKind
  | Nexus
  | Replica
  | Pool
  | Volume
deriving DecidableEq, Repr

/-- Service errors raised by the embedded operations (`SvcError`); error
payloads are kept structured instead of formatted into strings. -/
inductive SvcError
  | AlreadyShared (kind : ResourceKind) (id : Uuid) (share : Protocol)
  | NotShared (kind : ResourceKind) (id : Uuid)
  | ChildAlreadyExists (nexus : Uuid) (child : NexusChild)
  | ChildNotFound (nexus : Uuid) (child : NexusChild)
  | NexusNotFound (nexus_id : Uuid)
  | ReplicaNotFound (replica_id : Uuid)
  | NodeNotFound (node_id : NodeId)
deriving DecidableEq, Repr

/-- `NexusSpec::start_update_op` from
`control-plane/agents/core/src/nexus/specs.rs` (lines 52–90): validates an
update operation against the live `state` and the current spec, then records
it on the spec. The Rust function hits `unreachable!()` on `Create`/`Destroy`;
that panic is modelled as `none`, every returning path as `some`. -/
def NexusSpec.start_update_op (self : NexusSpec) (state : Nexus)
    (op : NexusOperation) : Option (Except SvcError NexusSpec) :=
  match op with
  | NexusOperation.Share _ =>
      if state.share.shared then
        some (Except.error (SvcError.AlreadyShared ResourceKind.Nexus self.uuid state.share))
      else
        some (Except.ok (self.start_op op))
  | NexusOperation.Unshare =>
      if !state.share.shared then
        some (Except.error (SvcError.NotShared ResourceKind.Nexus self.uuid))
      else
        some (Except.ok (self.start_op op))
  | NexusOperation.AddChild child =>
      if self.children.contains child then
        some (Except.error (SvcError.ChildAlreadyExists self.uuid child))
      else
        some (Except.ok (self.start_op op))
  | NexusOperation.RemoveChild child =>
      if !self.children.contains child && !state.contains_child child.uri then
        some (Except.error (SvcError.ChildNotFound self.uuid child))
      else
        some (Except.ok (self.start_op op))
  | _ => none

/-- Whether an operation is one of the four update operations accepted by
`start_update_op` (as opposed to `Create`/`Destroy`, which must go through
`start_create_op`/`start_destroy_op`). -/
def NexusOperation.isUpdate : NexusOperation → Bool
  | NexusOperation.Create => false
  | NexusOperation.Destroy => false
  | _ => true

/-! ## Replica specs and ownership (`common_lib` types used by `specs.rs`) -/

/-- Modelled from the spec: `ReplicaOwners` lives in `common_lib`; per §3 "A
replica may be owned by zero or more owners (nexus + volume simultaneously)" —
an optional volume owner plus a set of nexus owners. -/
structure ReplicaOwners where
  volume : Option Uuid
  nexuses : List Uuid
deriving DecidableEq, Repr

/-- `ReplicaOwners::new(volume, nexuses)`. -/
def ReplicaOwners.new (volume : Option Uuid) (nexuses : List Uuid) : ReplicaOwners :=
  { volume := volume, nexuses := nexuses }

/-- Modelled from the spec: `ReplicaOwners::add_owner` lives in `common_lib`;
per §4.2 it "adds the nexus as an additional owner" — the nexus owner set
gains the uuid (set semantics, no duplicate entries). -/
def ReplicaOwners.add_owner (self : ReplicaOwners) (nexus : Uuid) : ReplicaOwners :=
  if self.nexuses.contains nexus then self
  else { self with nexuses := self.nexuses ++ [nexus] }

/-- Modelled from the spec: `ReplicaOwners::disown` lives in `common_lib`;
per the glossary "disowning removes that dependency without destroying the
resource" — the matching volume owner is cleared and the listed nexus owners
are removed, all other owners stay. -/
def ReplicaOwners.disown (self : ReplicaOwners) (owner : ReplicaOwners) : ReplicaOwners :=
  { volume := if self.volume == owner.volume then none else self.volume,
    nexuses := self.nexuses.filter (fun n => !(owner.nexuses.contains n)) }

/-- Desired-state record for a replica (`ReplicaSpec` in `common_lib`): the
fields the core operations read and write. -/
structure ReplicaSpec where
  uuid : Uuid
  size : Nat
  pool : PoolId
  share : Protocol
  owners : ReplicaOwners
deriving DecidableEq, Repr

/-- `ReplicaSpec::disown(owner)` delegates to the owner-set `disown`. -/
def ReplicaSpec.disown (self : ReplicaSpec) (owner : ReplicaOwners) : ReplicaSpec :=
  { self with owners := self.owners.disown owner }

/-- `get_replica(uuid)`: look the replica spec up in the store by uuid. -/
def get_replica (replicas : List ReplicaSpec) (uuid : Uuid) : Option ReplicaSpec :=
  replicas.find? (fun r => r.uuid == uuid)

/-- Modelled from the spec: `get_volume_replicas` lives in the volume specs
module, outside the provided core files; per §3/§9 ownership is "an explicit
set of owner-ids stored on the replica spec", so the volume's replicas are
those whose owner set names the volume. -/
def get_volume_replicas (replicas : List ReplicaSpec) (volume : Uuid) : List ReplicaSpec :=
  replicas.filter (fun r => r.owners.volume == some volume)

/-! ## Scheduling: filters and sorters (`core/scheduling/mod.rs`) -/

/-- State of a storage pool (`PoolState` in `common_lib`). -/
inductive PoolState
  | Unknown
  | Online
  | Degraded
  | Faulted
deriving DecidableEq, Repr

/-- A pool as seen by the registry (`PoolWrapper`): capacity and usage in
bytes, plus its reported state. `free_space()` is derived from these. -/
structure PoolWrapper where
  id : PoolId
  node : NodeId
  capacity : Nat
  used : Nat
  state : PoolState
deriving DecidableEq, Repr

/-- `PoolWrapper::free_space()`: capacity minus used. -/
def PoolWrapper.free_space (self : PoolWrapper) : Nat :=
  self.capacity - self.used

/-- A pool placement candidate (`PoolItem` in `scheduling/resources.rs`): the
pool together with the liveness of its node. -/
structure PoolItem where
  node_online : Bool
  pool : PoolWrapper
deriving DecidableEq, Repr

/-- Placement request context (`GetSuitablePoolsContext`): the requested
size and the topology allow-list. -/
structure GetSuitablePoolsContext where
  size : Nat
  allowed_nodes : List NodeId
deriving DecidableEq, Repr

namespace PoolFilters

/-- `PoolFilters::enough_free_space`: keep only pools whose free space
strictly exceeds the requested size. -/
def enough_free_space (request : GetSuitablePoolsContext) (item : PoolItem) : Bool :=
  decide (item.pool.free_space > request.size)

/-- `PoolFilters::usable_pools`: exclude `Faulted` and `Unknown` pools. -/
def usable_pools (item : PoolItem) : Bool :=
  item.pool.state != PoolState.Faulted && item.pool.state != PoolState.Unknown

end PoolFilters

/-- A replica candidate for child selection (`ReplicaItem` in
`scheduling/resources.rs`): the replica spec together with its nexus-child
status, when the replica is currently attached to a nexus. -/
structure ReplicaItem where
  replica_spec : ReplicaSpec
  child_status : Option Child
deriving DecidableEq, Repr

/-- `ReplicaItem::spec()`. -/
def ReplicaItem.spec (self : ReplicaItem) : ReplicaSpec :=
  self.replica_spec

/-- `ReplicaItem::status()`: the nexus-child status, if attached. -/
def ReplicaItem.status (self : ReplicaItem) : Option Child :=
  self.child_status

/-- Rust's total order on `Option<i32>` used for rebuild progress:
`None` sorts below `Some`. -/
def compareOptNat : Option Nat → Option Nat → Ordering
  | none, none => Ordering.eq
  | none, some _ => Ordering.lt
  | some _, none => Ordering.gt
  | some x, some y => compare x y

namespace ChildSorters

/-- `ChildSorters::sort_by_child` (`scheduling/mod.rs` lines 99–123): compare
two replica candidates by their nexus-child status — an unattached replica
versus an attached one is decided immediately, two attached ones compare by
child state and then, when the states are incomparable, by rebuild
progress. -/
def sort_by_child (a b : ReplicaItem) : Ordering :=
  match a.status with
  | none =>
      match b.status with
      | none => Ordering.eq
      | some _ => Ordering.gt
  | some childa =>
      match b.status with
      | none => Ordering.lt
      | some childb =>
          match childa.state.compareOpt childb.state with
          | none => compareOptNat childa.rebuild_progress childb.rebuild_progress
          | some ord => ord

/-- `ChildSorters::sort` (`scheduling/mod.rs` lines 83–98): order by the
child comparison, breaking ties by locality — a locally attached (non-shared)
replica spec compares `Greater` than a network-shared one. -/
def sort (a b : ReplicaItem) : Ordering :=
  match sort_by_child a b with
  | Ordering.eq =>
      let childa_is_local := !a.spec.share.shared
      let childb_is_local := !b.spec.share.shared
      if childa_is_local == childb_is_local then Ordering.eq
      else if childa_is_local then Ordering.gt
      else Ordering.lt
  | ord => ord

end ChildSorters

/-! ## Spec store operations (`nexus/specs.rs`) -/

/-- The nexus create request (`CreateNexus` in `common_lib`): the fields the
core operations read. `owner` is the volume the nexus is created for, when
any. -/
structure CreateNexus where
  node : NodeId
  uuid : Uuid
  size : Nat
  children : List NexusChild
  owner : Option Uuid
deriving DecidableEq, Repr

/-- Modelled from the spec: `NexusSpec::from(&CreateNexus)` lives in
`common_lib`; per §3 a spec "holds a stable identifier, the last-known
desired configuration" — a fresh spec carries the request's fields, is not
yet shared, and has no pending operation. -/
def NexusSpec.fromRequest (request : CreateNexus) : NexusSpec :=
  { uuid := request.uuid
    node := request.node
    children := request.children
    size := request.size
    spec_status := SpecStatus.Creating
    share := Protocol.off
    owner := request.owner
    operation := none }

/-- The nexus table of the spec store (`ResourceSpecs.nexuses`), a map keyed
by nexus uuid, embedded as a list looked up by uuid. -/
structure ResourceSpecs where
  nexuses : List NexusSpec
deriving DecidableEq, Repr

/-- `specs.nexuses.get(uuid)`: keyed lookup. -/
def ResourceSpecs.get_nexus (specs : ResourceSpecs) (uuid : Uuid) : Option NexusSpec :=
  specs.nexuses.find? (fun n => n.uuid == uuid)

/-- `specs.nexuses.insert(spec)`: add a spec under its uuid. -/
def ResourceSpecs.insert_nexus (specs : ResourceSpecs) (nexus : NexusSpec) : ResourceSpecs :=
  { specs with nexuses := nexus :: specs.nexuses }

/-- `ResourceSpecsLocked::get_or_create_nexus` (`nexus/specs.rs` lines
192–199): return the existing spec for the request's uuid, or insert and
return a fresh one built from the request. The pair is the returned spec and
the store afterwards. -/
def get_or_create_nexus (specs : ResourceSpecs) (request : CreateNexus) :
    NexusSpec × ResourceSpecs :=
  match specs.get_nexus request.uuid with
  | some nexus => (nexus, specs)
  | none =>
      let nexus := NexusSpec.fromRequest request
      (nexus, specs.insert_nexus nexus)

/-- `ResourceSpecsLocked::on_create_set_owners` (`nexus/specs.rs` lines
201–224): after a nexus create, when the result is `Ok` and the request names
a volume owner, add the new nexus's uuid as an owner on every replica spec of
that volume that the nexus's children reference. Returns the replica store
afterwards. -/
def on_create_set_owners (replicas : List ReplicaSpec) (request : CreateNexus)
    (spec : NexusSpec) (result : Except SvcError Nexus) : List ReplicaSpec :=
  match result with
  | Except.ok nexus =>
      match request.owner with
      | some uuid =>
          let nexus_replicas := spec.children.filterMap NexusChild.as_replica
          replicas.map (fun replica_spec =>
            if replica_spec.owners.volume == some uuid
                && nexus_replicas.any (fun r => r.uuid == replica_spec.uuid) then
              { replica_spec with owners := replica_spec.owners.add_owner nexus.uuid }
            else replica_spec)
      | none => replicas
  | Except.error _ => replicas

/-- `ResourceSpecsLocked::on_delete_disown_replicas` (`nexus/specs.rs` lines
226–236): when a nexus is destroyed, disown it from every replica spec its
children reference (each replica child found in the store). Returns the
replica store afterwards. -/
def on_delete_disown_replicas (replicas : List ReplicaSpec) (nexus : NexusSpec) :
    List ReplicaSpec :=
  let children := nexus.children.filterMap NexusChild.as_replica
  replicas.map (fun replica =>
    if children.any (fun r => r.uuid == replica.uuid) then
      replica.disown (ReplicaOwners.new none [nexus.uuid])
    else replica)

/-! ## Dirty-spec reconciliation (`nexus/specs.rs` lines 413–425) -/

/-- A nexus spec as the reconciler sees it: the spec plus the environment
facts the pass depends on — whether `operation_guard()` can be taken right
now (it fails when another task holds the guard), and whether the persistent
store accepts the retried writes during this pass. -/
structure DirtyNexusCtx where
  spec : NexusSpec
  guard_free : Bool
  store_ok : Bool
deriving DecidableEq, Repr

/-- Modelled from the spec: `handle_incomplete_ops` is a
`GuardedOperationsHelper` default in the controller, outside the provided
core files; per §4.3 it attempts to "resolve the incomplete operation —
either by re-confirming the real remote state and completing the operation,
or by reverting it", returning whether every pending operation was handled.
A spec with no pending operation is already handled; a pending operation is
cleared when the store accepts the write, and left pending otherwise. -/
def handle_incomplete_ops (n : DirtyNexusCtx) : NexusSpec × Bool :=
  match n.spec.operation with
  | some _ =>
      if n.store_ok then ({ n.spec with operation := none }, true)
      else (n.spec, false)
  | none => (n.spec, true)

/-- `ResourceSpecsLocked::reconcile_dirty_nexuses` (`nexus/specs.rs` lines
413–425): walk every nexus spec, take its operation guard when free, handle
its incomplete operations, and report whether any spec is left with pending
operations. Returns the specs after the pass and the `pending_ops` flag. -/
def reconcile_dirty_nexuses : List DirtyNexusCtx → List DirtyNexusCtx × Bool
  | [] => ([], false)
  | n :: rest =>
      if n.guard_free then
        let handled := handle_incomplete_ops n
        let rec_rest := reconcile_dirty_nexuses rest
        ({ n with spec := handled.1 } :: rec_rest.1, !handled.2 || rec_rest.2)
      else
        let rec_rest := reconcile_dirty_nexuses rest
        (n :: rec_rest.1, rec_rest.2)

/-! ## Removing a nexus child by URI (`nexus/specs.rs` lines 307–374) -/

/-- The environment `remove_nexus_child_by_uri` runs against: the outcome of
the guarded child-removal dispatches, the replica spec store, and the
node-resolution and destroy outcomes of the registry. The dispatch outcomes
stand for `remove_nexus_replica` / `remove_child` (the remote call plus the
guarded spec update), whose own internals are exercised separately. -/
structure RemoveChildEnv where
  remove_replica_result : Except SvcError Unit
  remove_child_result : Except SvcError Unit
  replicas : List ReplicaSpec
  pool_node : PoolId → Option NodeId
  destroy_ok : Bool

/-- The externally visible effects of `remove_nexus_child_by_uri` on the
rest of the system: which replicas were disowned from their volume (and left
to the garbage collector) and which were destroyed synchronously. -/
structure RemoveChildEffects where
  disowned_from_volume : List Uuid
  destroyed : List Uuid
deriving DecidableEq, Repr

/-- No effects yet. -/
def RemoveChildEffects.empty : RemoveChildEffects :=
  { disowned_from_volume := [], destroyed := [] }

/-- `ResourceSpecsLocked::remove_nexus_child_by_uri` (`nexus/specs.rs` lines
307–374): find the child by URI among the spec's children; a replica child is
removed through `remove_nexus_replica`, and when `destroy_replica` is set and
that removal succeeded, the replica is destroyed on its node — unless the
node cannot be resolved, in which case the replica is only disowned from the
volume and the call still succeeds. A destroy failure on a resolved node is
logged, not propagated. A URI child (or an unknown URI) goes through
`remove_child`. -/
def remove_nexus_child_by_uri (env : RemoveChildEnv)
    (nexus_children : List NexusChild) (uri : ChildUri) (destroy_replica : Bool) :
    Except SvcError Unit × RemoveChildEffects :=
  match nexus_children.find? (fun c => c.uri == uri) with
  | some (NexusChild.Replica replica) =>
      match env.remove_replica_result, destroy_replica with
      | Except.ok _, true =>
          match get_replica env.replicas replica.uuid with
          | none =>
              (Except.error (SvcError.ReplicaNotFound replica.uuid),
               RemoveChildEffects.empty)
          | some replica_spec =>
              match env.pool_node replica_spec.pool with
              | some _ =>
                  (Except.ok (),
                   { RemoveChildEffects.empty with
                       destroyed := if env.destroy_ok then [replica.uuid] else [] })
              | none =>
                  (Except.ok (),
                   { RemoveChildEffects.empty with
                       disowned_from_volume := [replica.uuid] })
      | result, _ => (result, RemoveChildEffects.empty)
  | some (NexusChild.Uri _) => (env.remove_child_result, RemoveChildEffects.empty)
  | none => (env.remove_child_result, RemoveChildEffects.empty)

/-! ## Concrete fixtures used by witnesses and counterexamples -/

/-- A nexus spec with a single URI child and no pending operation. -/
def specEx : NexusSpec :=
  { uuid := "nexus-1"
    node := "node-1"
    children := [NexusChild.Uri "uri-1"]
    size := 100
    spec_status := SpecStatus.Creating
    share := Protocol.off
    owner := none
    operation := none }

/-- A live nexus state that is currently shared over nvmf. -/
def stateShared : Nexus :=
  { uuid := "nexus-1"
    node := "node-1"
    share := Protocol.nvmf
    children := []
    status := NexusStatus.Online }

/-- A replica candidate not attached to any nexus. -/
def itemUnattached : ReplicaItem :=
  { replica_spec :=
      { uuid := "replica-1", size := 10, pool := "pool-1", share := Protocol.off
        owners := ReplicaOwners.new none [] }
    child_status := none }

/-- A replica candidate attached to a nexus as a healthy online child. -/
def itemAttached : ReplicaItem :=
  { replica_spec :=
      { uuid := "replica-2", size := 10, pool := "pool-2", share := Protocol.off
        owners := ReplicaOwners.new none [] }
    child_status :=
      some { uri := "uri-2", state := ChildState.Online, rebuild_progress := none } }

/-- An unattached, locally accessed (non-shared) replica candidate. -/
def itemLocal : ReplicaItem :=
  { replica_spec :=
      { uuid := "replica-3", size := 10, pool := "pool-3", share := Protocol.off
        owners := ReplicaOwners.new none [] }
    child_status := none }

/-- An unattached, network-shared replica candidate. -/
def itemNetShared : ReplicaItem :=
  { replica_spec :=
      { uuid := "replica-4", size := 10, pool := "pool-4", share := Protocol.nvmf
        owners := ReplicaOwners.new none [] }
    child_status := none }

/-- A nexus create request owned by volume `volume-1`, with one replica
child. -/
def reqEx : CreateNexus :=
  { node := "node-1"
    uuid := "nexus-1"
    size := 100
    children := [NexusChild.Replica { uuid := "replica-1", share_uri := "uri-1" }]
    owner := some "volume-1" }

/-- The same create request with no volume owner. -/
def reqNoOwner : CreateNexus :=
  { reqEx with owner := none }

/-- The spec built for `reqEx`, with the replica child recorded. -/
def specC4 : NexusSpec :=
  NexusSpec.fromRequest reqEx

/-- The live nexus state returned by a successful create of `reqEx`. -/
def nexusEx : Nexus :=
  { uuid := "nexus-1"
    node := "node-1"
    share := Protocol.off
    children := [{ uri := "uri-1", state := ChildState.Online, rebuild_progress := none }]
    status := NexusStatus.Online }

/-- The referenced replica spec, existing in the store, owned by no one. -/
def replicaEx : ReplicaSpec :=
  { uuid := "replica-1", size := 100, pool := "pool-1", share := Protocol.off
    owners := ReplicaOwners.new none [] }

/-- The referenced replica spec, owned by volume `volume-1`. -/
def replicaVolEx : ReplicaSpec :=
  { replicaEx with owners := ReplicaOwners.new (some "volume-1") [] }

/-- The referenced replica spec, owned by volume `volume-1` and by
`nexus-1`. -/
def replicaOwnedEx : ReplicaSpec :=
  { replicaEx with owners := ReplicaOwners.new (some "volume-1") ["nexus-1"] }

/-- A reconciler view of a dirty nexus spec: pending `Unshare`, guard free,
persistent store refusing writes this pass. -/
def dirtyCtxEx : DirtyNexusCtx :=
  { spec := { specEx with
      operation := some { operation := NexusOperation.Unshare, result := none } }
    guard_free := true
    store_ok := false }

/-- An environment for `remove_nexus_child_by_uri` where the child removal
succeeded but no node can be resolved for any pool. -/
def envOffline : RemoveChildEnv :=
  { remove_replica_result := Except.ok ()
    remove_child_result := Except.ok ()
    replicas := [replicaVolEx]
    pool_node := fun _ => none
    destroy_ok := true }

/-! ## Helper lemmas -/

/-- After `add_owner`, the added nexus uuid is in the owner set. -/
theorem mem_add_owner_nexuses (o : ReplicaOwners) (n : Uuid) :
    n ∈ (o.add_owner n).nexuses := by
  by_cases h : n ∈ o.nexuses <;> simp [ReplicaOwners.add_owner, h]

/-! ## Theorems -/

/-- C1: `NexusSpec::start_update_op` rejects exactly per the validation
table — `Share` on an already shared state yields `AlreadyShared`, `Unshare`
on a non-shared state yields `NotShared`, `AddChild` for a child already in
the spec yields `ChildAlreadyExists`, `RemoveChild` for a child in neither
the spec nor the live state yields `ChildNotFound`, and every other case of
these four operations records the operation on the spec and returns `Ok`. -/
theorem start_update_op_validation_table (spec : NexusSpec) (state : Nexus) :
    (∀ p, state.share.shared = true →
      spec.start_update_op state (NexusOperation.Share p) =
        some (Except.error
          (SvcError.AlreadyShared ResourceKind.Nexus spec.uuid state.share))) ∧
    (∀ p, state.share.shared = false →
      spec.start_update_op state (NexusOperation.Share p) =
        some (Except.ok (spec.start_op (NexusOperation.Share p)))) ∧
    (state.share.shared = false →
      spec.start_update_op state NexusOperation.Unshare =
        some (Except.error (SvcError.NotShared ResourceKind.Nexus spec.uuid))) ∧
    (state.share.shared = true →
      spec.start_update_op state NexusOperation.Unshare =
        some (Except.ok (spec.start_op NexusOperation.Unshare))) ∧
    (∀ c, spec.children.contains c = true →
      spec.start_update_op state (NexusOperation.AddChild c) =
        some (Except.error (SvcError.ChildAlreadyExists spec.uuid c))) ∧
    (∀ c, spec.children.contains c = false →
      spec.start_update_op state (NexusOperation.AddChild c) =
        some (Except.ok (spec.start_op (NexusOperation.AddChild c)))) ∧
    (∀ c, spec.children.contains c = false → state.contains_child c.uri = false →
      spec.start_update_op state (NexusOperation.RemoveChild c) =
        some (Except.error (SvcError.ChildNotFound spec.uuid c))) ∧
    (∀ c, spec.children.contains c = true ∨ state.contains_child c.uri = true →
      spec.start_update_op state (NexusOperation.RemoveChild c) =
        some (Except.ok (spec.start_op (NexusOperation.RemoveChild c)))) := by
  refine ⟨fun p h => ?_, fun p h => ?_, fun h => ?_, fun h => ?_, fun c h => ?_,
    fun c h => ?_, fun c h1 h2 => ?_, fun c h => ?_⟩
  · simp [NexusSpec.start_update_op, h]
  · simp [NexusSpec.start_update_op, h]
  · simp [NexusSpec.start_update_op, h]
  · simp [NexusSpec.start_update_op, h]
  · simp at h; simp [NexusSpec.start_update_op, h]
  · simp at h; simp [NexusSpec.start_update_op, h]
  · simp at h1; simp [NexusSpec.start_update_op, h1, h2]
  · rcases h with h | h
    · simp at h; simp [NexusSpec.start_update_op, h]
    · simp [NexusSpec.start_update_op, h]

/-- Witness for C1: sharing the already-shared fixture nexus is rejected with
`AlreadyShared`. -/
theorem start_update_op_validation_table_witness :
    specEx.start_update_op stateShared (NexusOperation.Share Protocol.nvmf) =
      some (Except.error
        (SvcError.AlreadyShared ResourceKind.Nexus specEx.uuid stateShared.share)) :=
  (start_update_op_validation_table specEx stateShared).1 Protocol.nvmf rfl

/-- C10: `start_update_op` returns (without reaching `unreachable!()`) for
every `Share`/`Unshare`/`AddChild`/`RemoveChild` operation, and hits the
`unreachable!()` panic (modelled as `none`) on `Create` and `Destroy`. -/
theorem start_update_op_totality (spec : NexusSpec) (state : Nexus)
    (op : NexusOperation) :
    (op.isUpdate = true → (spec.start_update_op state op).isSome = true) ∧
    (spec.start_update_op state NexusOperation.Create = none) ∧
    (spec.start_update_op state NexusOperation.Destroy = none) := by
  refine ⟨fun h => ?_, rfl, rfl⟩
  cases op <;> simp [NexusOperation.isUpdate] at h <;>
    simp [NexusSpec.start_update_op] <;> split <;> simp

/-- Witness for C10: `Unshare` against the shared fixture state returns. -/
theorem start_update_op_totality_witness :
    (specEx.start_update_op stateShared NexusOperation.Unshare).isSome = true :=
  (start_update_op_totality specEx stateShared NexusOperation.Unshare).1 rfl

/-- C2 counterexample: for the concrete unattached candidate `itemUnattached`
and attached candidate `itemAttached`, `sort_by_child` does not return
`Less` — it returns `Greater`, contradicting the claim that the unattached
replica compares `Less`. -/
theorem sort_by_child_unattached_not_lt :
    ChildSorters.sort_by_child itemUnattached itemAttached ≠ Ordering.lt := by
  decide

/-- C2 amended: for every pair of replica candidates where `a` has no
nexus-child status and `b` has one, `sort_by_child` returns `Greater` — the
unattached replica sorts after the attached one in ascending order. -/
theorem sort_by_child_unattached_gt (a b : ReplicaItem)
    (ha : a.status = none) (hb : b.status.isSome = true) :
    ChildSorters.sort_by_child a b = Ordering.gt := by
  cases hbs : b.status with
  | none => rw [hbs] at hb; simp at hb
  | some c => simp [ChildSorters.sort_by_child, ha, hbs]

/-- Witness for the amended C2: the fixture pair compares `Greater`. -/
theorem sort_by_child_unattached_gt_witness :
    ChildSorters.sort_by_child itemUnattached itemAttached = Ordering.gt :=
  sort_by_child_unattached_gt itemUnattached itemAttached rfl rfl

/-- C3: when two replica candidates compare `Equal` under the child-state
comparison, `ChildSorters::sort` returns `Greater` when the first is local
(non-shared) and the second network-shared, `Less` in the mirrored case, and
`Equal` when both have the same locality. -/
theorem sort_local_preference (a b : ReplicaItem)
    (h : ChildSorters.sort_by_child a b = Ordering.eq) :
    (a.spec.share.shared = false → b.spec.share.shared = true →
      ChildSorters.sort a b = Ordering.gt) ∧
    (a.spec.share.shared = true → b.spec.share.shared = false →
      ChildSorters.sort a b = Ordering.lt) ∧
    (a.spec.share.shared = b.spec.share.shared →
      ChildSorters.sort a b = Ordering.eq) := by
  refine ⟨fun hla hlb => ?_, fun hla hlb => ?_, fun heq => ?_⟩
  · simp [ChildSorters.sort, h, hla, hlb]
  · simp [ChildSorters.sort, h, hla, hlb]
  · simp [ChildSorters.sort, h, heq]

/-- Witness for C3: the local fixture candidate sorts `Greater` than the
network-shared one when the child comparison ties. -/
theorem sort_local_preference_witness :
    ChildSorters.sort itemLocal itemNetShared = Ordering.gt :=
  (sort_local_preference itemLocal itemNetShared rfl).1 rfl rfl

/-- C9: `enough_free_space` keeps a pool exactly when its free space strictly
exceeds the requested size; free space equal to the size is rejected, one
byte more is accepted. -/
theorem enough_free_space_strict (request : GetSuitablePoolsContext)
    (item : PoolItem) :
    (PoolFilters.enough_free_space request item = true ↔
      item.pool.free_space > request.size) ∧
    (item.pool.free_space = request.size →
      PoolFilters.enough_free_space request item = false) ∧
    (item.pool.free_space = request.size + 1 →
      PoolFilters.enough_free_space request item = true) := by
  refine ⟨?_, fun h => ?_, fun h => ?_⟩
  · simp [PoolFilters.enough_free_space]
  · simp [PoolFilters.enough_free_space, h]
  · simp [PoolFilters.enough_free_space, h]

/-- C8: `get_or_create_nexus` is idempotent and first-writer-wins — an
existing spec under the request's uuid is returned with the store unchanged
and the new request ignored, a missing one is built from the request and
inserted, and a second call with the same uuid (whatever its other fields)
returns the spec the first call returned. -/
theorem get_or_create_nexus_idempotent (specs : ResourceSpecs)
    (request request2 : CreateNexus) (huuid : request2.uuid = request.uuid) :
    (∀ n, specs.get_nexus request.uuid = some n →
      get_or_create_nexus specs request = (n, specs)) ∧
    (specs.get_nexus request.uuid = none →
      get_or_create_nexus specs request =
        (NexusSpec.fromRequest request,
         specs.insert_nexus (NexusSpec.fromRequest request))) ∧
    (get_or_create_nexus (get_or_create_nexus specs request).2 request2).1 =
      (get_or_create_nexus specs request).1 := by
  refine ⟨fun n hn => ?_, fun hn => ?_, ?_⟩
  · simp [get_or_create_nexus, hn]
  · simp [get_or_create_nexus, hn]
  · cases hn : specs.get_nexus request.uuid with
    | some n => simp [get_or_create_nexus, hn, huuid]
    | none =>
        have hn' : List.find? (fun n => n.uuid == request.uuid) specs.nexuses = none := by
          simpa [ResourceSpecs.get_nexus] using hn
        simp [get_or_create_nexus, ResourceSpecs.get_nexus,
          ResourceSpecs.insert_nexus, NexusSpec.fromRequest, huuid, hn',
          List.find?_cons]

/-- Witness for C8: two identical create calls against the empty store return
the same spec record. -/
theorem get_or_create_nexus_idempotent_witness :
    (get_or_create_nexus (get_or_create_nexus { nexuses := [] } reqEx).2 reqEx).1 =
      (get_or_create_nexus { nexuses := [] } reqEx).1 :=
  (get_or_create_nexus_idempotent { nexuses := [] } reqEx reqEx rfl).2.2

/-- C4 counterexample: a successful create whose children reference the
existing replica `replica-1`, but whose request carries no volume owner,
leaves the replica store untouched — the nexus uuid is not added to the
replica's owner set, contradicting the claim that every successful completion
adds it. -/
theorem on_create_set_owners_counterexample :
    on_create_set_owners [replicaEx] reqNoOwner specC4 (Except.ok nexusEx) =
      [replicaEx] ∧
    replicaEx.owners.nexuses.contains nexusEx.uuid = false := by
  decide

/-- C4 amended: on a failed result, or a successful one whose request names
no volume owner, the replica store is unchanged; on a successful result with
a volume owner, every replica spec of that volume referenced by the nexus's
children gains the new nexus's uuid as an owner. -/
theorem on_create_set_owners_spec (replicas : List ReplicaSpec)
    (request : CreateNexus) (spec : NexusSpec) (nexus : Nexus) :
    (∀ e, on_create_set_owners replicas request spec (Except.error e) = replicas) ∧
    (request.owner = none →
      on_create_set_owners replicas request spec (Except.ok nexus) = replicas) ∧
    (∀ vol, request.owner = some vol →
      ∀ r ∈ replicas, r.owners.volume = some vol →
        (spec.children.filterMap NexusChild.as_replica).any
            (fun c => c.uuid == r.uuid) = true →
        { r with owners := r.owners.add_owner nexus.uuid } ∈
            on_create_set_owners replicas request spec (Except.ok nexus) ∧
          nexus.uuid ∈ (r.owners.add_owner nexus.uuid).nexuses) := by
  refine ⟨fun e => rfl, fun h => ?_, fun vol hvol r hr hrvol hany => ?_⟩
  · simp [on_create_set_owners, h]
  · refine ⟨?_, mem_add_owner_nexuses r.owners nexus.uuid⟩
    simp only [on_create_set_owners, hvol]
    have hmem := List.mem_map_of_mem (f := fun replica_spec =>
        if replica_spec.owners.volume == some vol &&
            ((spec.children.filterMap NexusChild.as_replica).any
              (fun c => c.uuid == replica_spec.uuid)) then
          { replica_spec with owners := replica_spec.owners.add_owner nexus.uuid }
        else replica_spec) hr
    simpa [hrvol, hany] using hmem

/-- Witness for the amended C4: the volume-owned fixture replica gains
`nexus-1` as an owner after the successful create of `reqEx`. -/
theorem on_create_set_owners_spec_witness :
    { replicaVolEx with owners := replicaVolEx.owners.add_owner nexusEx.uuid } ∈
        on_create_set_owners [replicaVolEx] reqEx specC4 (Except.ok nexusEx) ∧
      nexusEx.uuid ∈ (replicaVolEx.owners.add_owner nexusEx.uuid).nexuses :=
  (on_create_set_owners_spec [replicaVolEx] reqEx specC4 nexusEx).2.2
    "volume-1" rfl replicaVolEx (by decide) rfl (by decide)

/-- C5: `on_delete_disown_replicas` removes the destroyed nexus's uuid from
the owner set of every replica spec referenced by the nexus's children,
keeping the volume owner and every other nexus owner intact; replicas not
referenced are left unchanged. -/
theorem on_delete_disown_replicas_spec (replicas : List ReplicaSpec)
    (nexus : NexusSpec) :
    ∀ r ∈ replicas,
      ((nexus.children.filterMap NexusChild.as_replica).any
          (fun c => c.uuid == r.uuid) = true →
        r.disown (ReplicaOwners.new none [nexus.uuid]) ∈
            on_delete_disown_replicas replicas nexus ∧
          nexus.uuid ∉ (r.disown (ReplicaOwners.new none [nexus.uuid])).owners.nexuses ∧
          (r.disown (ReplicaOwners.new none [nexus.uuid])).owners.volume =
            r.owners.volume ∧
          ∀ n, n ≠ nexus.uuid →
            (n ∈ (r.disown (ReplicaOwners.new none [nexus.uuid])).owners.nexuses ↔
              n ∈ r.owners.nexuses)) ∧
      ((nexus.children.filterMap NexusChild.as_replica).any
          (fun c => c.uuid == r.uuid) = false →
        r ∈ on_delete_disown_replicas replicas nexus) := by
  intro r hr
  refine ⟨fun hany => ⟨?_, ?_, ?_, fun n hn => ?_⟩, fun hany => ?_⟩
  · have hmem := List.mem_map_of_mem (f := fun replica =>
        if (nexus.children.filterMap NexusChild.as_replica).any
            (fun c => c.uuid == replica.uuid) then
          replica.disown (ReplicaOwners.new none [nexus.uuid])
        else replica) hr
    simpa [on_delete_disown_replicas, hany] using hmem
  · simp [ReplicaSpec.disown, ReplicaOwners.disown, ReplicaOwners.new,
      List.mem_filter]
  · cases hv : r.owners.volume <;>
      simp [ReplicaSpec.disown, ReplicaOwners.disown, ReplicaOwners.new, hv]
  · simp [ReplicaSpec.disown, ReplicaOwners.disown, ReplicaOwners.new,
      List.mem_filter, hn]
  · have hmem := List.mem_map_of_mem (f := fun replica =>
        if (nexus.children.filterMap NexusChild.as_replica).any
            (fun c => c.uuid == replica.uuid) then
          replica.disown (ReplicaOwners.new none [nexus.uuid])
        else replica) hr
    simpa [on_delete_disown_replicas, hany] using hmem

/-- Witness for C5: destroying `specC4` removes `nexus-1` from the fixture
replica owned by both `volume-1` and `nexus-1`, keeping the volume owner. -/
theorem on_delete_disown_replicas_spec_witness :
    replicaOwnedEx.disown (ReplicaOwners.new none [specC4.uuid]) ∈
        on_delete_disown_replicas [replicaOwnedEx] specC4 ∧
      specC4.uuid ∉
        (replicaOwnedEx.disown (ReplicaOwners.new none [specC4.uuid])).owners.nexuses ∧
      (replicaOwnedEx.disown (ReplicaOwners.new none [specC4.uuid])).owners.volume =
        replicaOwnedEx.owners.volume :=
  have h := (on_delete_disown_replicas_spec [replicaOwnedEx] specC4
    replicaOwnedEx (by decide)).1 (by decide)
  ⟨h.1, h.2.1, h.2.2.1⟩

/-- C6: under a pass where every operation guard is free,
`reconcile_dirty_nexuses` returns `true` exactly when some nexus spec is left
with a pending operation after the pass. -/
theorem reconcile_dirty_nexuses_pending (nexuses : List DirtyNexusCtx)
    (h : ∀ n ∈ nexuses, n.guard_free = true) :
    ((reconcile_dirty_nexuses nexuses).2 = true ↔
      ∃ n ∈ (reconcile_dirty_nexuses nexuses).1, n.spec.operation.isSome = true) := by
  induction nexuses with
  | nil => simp [reconcile_dirty_nexuses]
  | cons n rest ih =>
      have hn : n.guard_free = true := h n (List.mem_cons_self n rest)
      have hrest := ih fun m hm => h m (List.mem_cons_of_mem n hm)
      cases hop : n.spec.operation with
      | none => simp [reconcile_dirty_nexuses, hn, handle_incomplete_ops, hop, hrest]
      | some o =>
          cases hso : n.store_ok with
          | true =>
              simp [reconcile_dirty_nexuses, hn, handle_incomplete_ops, hop, hso,
                hrest]
          | false =>
              simp [reconcile_dirty_nexuses, hn, handle_incomplete_ops, hop, hso]

/-- Witness for C6: one dirty spec whose store write fails leaves the pass
with `pending_ops = true` and the spec still pending. -/
theorem reconcile_dirty_nexuses_pending_witness :
    ((reconcile_dirty_nexuses [dirtyCtxEx]).2 = true ↔
      ∃ n ∈ (reconcile_dirty_nexuses [dirtyCtxEx]).1,
        n.spec.operation.isSome = true) :=
  reconcile_dirty_nexuses_pending [dirtyCtxEx] (by decide)

/-- C7: with `destroy_replica = true`, once the replica child's removal
succeeded, an unresolvable hosting node never fails the call — the replica is
disowned from the volume, nothing is destroyed, and the result is `Ok`. -/
theorem remove_nexus_child_by_uri_offline_node (env : RemoveChildEnv)
    (nexus_children : List NexusChild) (uri : ChildUri) (replica : ReplicaUri)
    (replica_spec : ReplicaSpec)
    (hfind : nexus_children.find? (fun c => c.uri == uri) =
      some (NexusChild.Replica replica))
    (hok : env.remove_replica_result = Except.ok ())
    (hspec : get_replica env.replicas replica.uuid = some replica_spec)
    (hnode : env.pool_node replica_spec.pool = none) :
    remove_nexus_child_by_uri env nexus_children uri true =
      (Except.ok (), { disowned_from_volume := [replica.uuid], destroyed := [] }) := by
  simp [remove_nexus_child_by_uri, hfind, hok, hspec, hnode,
    RemoveChildEffects.empty]

/-- Witness for C7: removing the fixture replica child in the offline-node
environment succeeds and merely disowns the replica from the volume. -/
theorem remove_nexus_child_by_uri_offline_node_witness :
    remove_nexus_child_by_uri envOffline
        [NexusChild.Replica { uuid := "replica-1", share_uri := "uri-1" }]
        "uri-1" true =
      (Except.ok (), { disowned_from_volume := ["replica-1"], destroyed := [] }) :=
  remove_nexus_child_by_uri_offline_node envOffline
    [NexusChild.Replica { uuid := "replica-1", share_uri := "uri-1" }] "uri-1"
    { uuid := "replica-1", share_uri := "uri-1" } replicaVolEx
    (by decide) rfl (by decide) rfl

/-- Witness for C9: a pool with 100 bytes free is rejected for a 100-byte
request and accepted for a 99-byte request. -/
theorem enough_free_space_strict_witness :
    PoolFilters.enough_free_space { size := 100, allowed_nodes := [] }
      { node_online := true
        pool := { id := "pool-1", node := "node-1", capacity := 100, used := 0
                  state := PoolState.Online } } = false ∧
    PoolFilters.enough_free_space { size := 99, allowed_nodes := [] }
      { node_online := true
        pool := { id := "pool-1", node := "node-1", capacity := 100, used := 0
                  state := PoolState.Online } } = true :=
  ⟨(enough_free_space_strict _ _).2.1 rfl, (enough_free_space_strict _ _).2.2 rfl⟩

end Mayastor
